import Mathlib

/-
  Verification development for the node lifecycle / log-watching engine of
  the ccm repository (src/ccmlib/node.py).

  The Python source is shallowly embedded:
  - `updateStatus` embeds `Node.__update_status` (node.py 859-888); the
    outcome of `os.kill(pid, 0)` is a `ProbeResult` argument, the raised
    `OSError` on an unclassified errno is `Option.none`, and the number of
    `__update_config` persistence writes performed is returned alongside the
    new node state.
  - `watchLogFor` embeds `Node.watch_log_for` (node.py 248-305).  Regular
    expression search is an arbitrary `String → String → Bool` parameter
    (the code only ever calls `e.search(line)` and removes patterns by object
    identity); the log file is a static environment (existence flag plus the
    list of lines after the seek position); `process.poll()` is a function
    from the poll count to the observed returncode; recursion is fuel
    bounded, fuel exhaustion yielding `WatchOutcome.diverge`.  The semantics
    is cost instrumented: the result carries a `Stats` record counting
    tenths of seconds slept, polls issued and lines read.
  - `startEvents` / `stopEvents` embed the order of the externally visible
    actions of `Node.start` (node.py 330-416) and `Node.stop` (418-459)
    as event traces, for the mark-before-action ordering claim.
  - `updateConfig` / `loadNode` embed the node.conf record written by
    `Node.__update_config` (737-764) and read back by `Node.load` (63-96);
    Python truthiness tests (`if self.pid:` etc.) are made explicit.
-/

namespace Ccm

/-! ## Status state machine (class Status, node.py 8-12) -/

inductive Status where
  | uninitialized
  | up
  | down
  | decommisionned
deriving DecidableEq

/-- The fields of a Node that `__update_status` touches: `self.status` and
`self.pid`. -/
structure NodeState where
  status : Status
  pid : Option Int
deriving DecidableEq

/-- Outcome of the liveness probe `os.kill(self.pid, 0)` (node.py 867):
either it succeeds, or it raises `OSError` with `errno` equal to `ESRCH`,
`EPERM`, or some other value. -/
inductive ProbeResult where
  | ok
  | esrch
  | eperm
  | otherErr
deriving DecidableEq

/-- Embeds node.py 884-887: if the status changed, clear the pid on an
UP → DOWN transition, then perform one `__update_config` write. -/
def updateStatusFinish (old : Status) (n : NodeState) : NodeState × Nat :=
  if old = n.status then (n, 0)
  else
    let n2 := if old = Status.up ∧ n.status = Status.down then { n with pid := none } else n
    (n2, 1)

/-- Embeds `Node.__update_status` (node.py 859-887).  Returns `none` when the
code re-raises the probe error (unclassified errno, node.py 879), otherwise
`some` of the new state together with the number of `__update_config`
persistence writes performed. -/
def updateStatus (probe : ProbeResult) (n : NodeState) : Option (NodeState × Nat) :=
  match n.pid with
  | none =>
      -- node.py 860-863: demote and return early, without persisting
      if n.status = Status.up ∨ n.status = Status.decommisionned then
        some ({ n with status := Status.down }, 0)
      else
        some (n, 0)
  | some _ =>
      let oldStatus := n.status
      match probe with
      | ProbeResult.esrch =>
          let n1 := if n.status = Status.up ∨ n.status = Status.decommisionned then
              { n with status := Status.down } else n
          some (updateStatusFinish oldStatus n1)
      | ProbeResult.eperm =>
          let n1 := if n.status = Status.up ∨ n.status = Status.decommisionned then
              { n with status := Status.down } else n
          some (updateStatusFinish oldStatus n1)
      | ProbeResult.otherErr => none
      | ProbeResult.ok =>
          let n1 := if n.status = Status.down ∨ n.status = Status.uninitialized then
              { n with status := Status.up } else n
          some (updateStatusFinish oldStatus n1)

end Ccm

namespace Ccm

/-! ## Claims C2, C3, C4 about `__update_status` -/

/-- Counterexample to C2: a node that is UP with an absent pid is demoted to
DOWN by refresh, an observed status transition, yet zero persistence writes
are performed (the early return at node.py 863 skips `__update_config`). -/
theorem c2_pid_absent_demotion_writes_nothing :
    updateStatus ProbeResult.ok ⟨Status.up, none⟩
      = some (⟨Status.down, none⟩, 0)
    ∧ Status.down ≠ Status.up ∧ (0 : Nat) ≠ 1 := by
  decide

/-- C2 (amended): a refresh performs exactly one persistence write precisely
when the pid is present and the probe-observed status differs from the prior
status; a no-op refresh writes nothing, and the pid-absent demotion to DOWN
also writes nothing.  Moreover refresh is idempotent: re-running it with the
same probe outcome changes nothing and writes nothing. -/
theorem c2_write_iff_probe_observed_transition
    (probe : ProbeResult) (n n2 : NodeState) (w : Nat)
    (h : updateStatus probe n = some (n2, w)) :
    (w = 1 ↔ (n.pid ≠ none ∧ n2.status ≠ n.status))
    ∧ updateStatus probe n2 = some (n2, 0) := by
  rcases n with ⟨s, p⟩
  rcases p with _ | p <;> cases s <;> cases probe <;>
    simp [updateStatus, updateStatusFinish] at h <;>
    (obtain ⟨rfl, rfl⟩ := h
     simp [updateStatus, updateStatusFinish])

/-- Witness for C2: instantiates the amended theorem at the DOWN → UP
promotion of a node with pid 7 under a successful probe. -/
theorem c2_write_iff_probe_observed_transition_witness :
    ((1 : Nat) = 1 ↔ ((⟨Status.down, some 7⟩ : NodeState).pid ≠ none ∧
        (⟨Status.up, some 7⟩ : NodeState).status ≠ (⟨Status.down, some 7⟩ : NodeState).status))
    ∧ updateStatus ProbeResult.ok ⟨Status.up, some 7⟩ = some (⟨Status.up, some 7⟩, 0) :=
  c2_write_iff_probe_observed_transition ProbeResult.ok ⟨Status.down, some 7⟩
    ⟨Status.up, some 7⟩ 1 (by decide)

/-- Counterexample to C3: refreshing a node with pid unset and status
UNINITIALIZED leaves the status UNINITIALIZED (not DOWN) and performs zero
persistence writes (not one): node.py 860-863 only demotes UP or
DECOMMISIONNED when the pid is absent. -/
theorem c3_uninitialized_refresh_not_down :
    updateStatus ProbeResult.esrch ⟨Status.uninitialized, none⟩
      = some (⟨Status.uninitialized, none⟩, 0)
    ∧ Status.uninitialized ≠ Status.down := by
  decide

/-- C3 (amended): refreshing a node with pid unset and status UNINITIALIZED
is a no-op: the status stays UNINITIALIZED, no persistence write happens,
and no error is raised, whatever the probe would have said. -/
theorem c3_uninitialized_refresh_noop (probe : ProbeResult) :
    updateStatus probe ⟨Status.uninitialized, none⟩
      = some (⟨Status.uninitialized, none⟩, 0) := by
  cases probe <;> decide

/-- Counterexample to C4: the DECOMMISIONNED → DOWN demotion performed by
refresh does not clear the pid: with pid 5 and a dead process the node ends
DOWN with pid still 5 (node.py 885 only clears pid when the old status was
UP). -/
theorem c4_decommissioned_down_keeps_pid :
    updateStatus ProbeResult.esrch ⟨Status.decommisionned, some 5⟩
      = some (⟨Status.down, some 5⟩, 1)
    ∧ (some 5 : Option Int) ≠ none := by
  decide

/-- C4 (amended): refresh clears the pid exactly on the UP → DOWN demotion;
the DECOMMISIONNED → DOWN demotion keeps the recorded pid. -/
theorem c4_pid_cleared_only_from_up
    (probe : ProbeResult) (n n2 : NodeState) (w : Nat)
    (h : updateStatus probe n = some (n2, w)) :
    (n.status = Status.up → n2.status = Status.down → n2.pid = none)
    ∧ (n.status = Status.decommisionned → n2.status = Status.down → n2.pid = n.pid) := by
  rcases n with ⟨s, p⟩
  rcases p with _ | p <;> cases s <;> cases probe <;>
    simp [updateStatus, updateStatusFinish] at h <;>
    (obtain ⟨rfl, rfl⟩ := h
     simp)

/-- Witness for C4: instantiates the amended theorem at the UP → DOWN
demotion of a node with pid 9 whose process has disappeared, checking that
the pid is indeed cleared there. -/
theorem c4_pid_cleared_only_from_up_witness :
    ((⟨Status.up, some 9⟩ : NodeState).status = Status.up →
      (⟨Status.down, none⟩ : NodeState).status = Status.down →
      (⟨Status.down, none⟩ : NodeState).pid = none)
    ∧ ((⟨Status.up, some 9⟩ : NodeState).status = Status.decommisionned →
      (⟨Status.down, none⟩ : NodeState).status = Status.down →
      (⟨Status.down, none⟩ : NodeState).pid = (⟨Status.up, some 9⟩ : NodeState).pid) :=
  c4_pid_cleared_only_from_up ProbeResult.esrch ⟨Status.up, some 9⟩
    ⟨Status.down, none⟩ 1 (by decide)

end Ccm

namespace Ccm

/-! ## LogWatcher: embedding of `Node.watch_log_for` (node.py 248-305)

The embedding is cost instrumented: alongside the outcome it returns a
`Stats` record with the tenths of seconds slept (`time.sleep(.5)` in the
file-creation polling loop, `time.sleep(1)` at end of file), the number of
`process.poll()` calls issued, and the number of lines read. -/

structure Stats where
  sleptTenths : Nat
  polls : Nat
  linesRead : Nat
deriving DecidableEq

/-- A supplied process handle: `rc k` is the value of `process.returncode`
observed by the k-th `process.poll()` call; `stderrText` is the content of
the process standard-error stream that `print_process_output` prints. -/
structure Proc where
  rc : Nat → Option Int
  stderrText : String

/-- The environment of one `watch_log_for` call: the node name, whether the
log file exists, the list of log lines after the seek position (the
`from_mark` offset), and the optional process handle. -/
structure WatchEnv where
  nodeName : String
  logExists : Bool
  logLines : List String
  proc : Option Proc

/-- Observable result of `watch_log_for`.  `success none` is Python
returning `None`; `success (some ms)` is the list of (line, pattern) pairs;
`timeoutErr` is the raised `TimeoutError` with the node name, the patterns
still in `tofind` and the accumulated `reads`; `procFailure msg` is the
raised `RuntimeError()` whose payload is exactly `msg`; `diverge` means the
call did not return within the recursion fuel. -/
inductive WatchOutcome where
  | success (ms : Option (List (String × String)))
  | timeoutErr (node : String) (missing : List String) (reads : String)
  | procFailure (msg : String)
  | diverge
deriving DecidableEq

/-- Helper for `strContains`: does `p` occur as a contiguous run inside the
character list? -/
def charsContain (p : List Char) : List Char → Bool
  | [] => p.isEmpty
  | c :: rest => p.isPrefixOf (c :: rest) || charsContain p rest

/-- Substring search, a concrete instance of `re.search` used for witnesses
and counterexamples (every literal string is a regular expression matching
itself). -/
def strContains (line pat : String) : Bool :=
  charsContain pat.data line.data

/-- Embeds the inner `for e in tofind:` loop of node.py 288-293 with the
exact Python iterator semantics over a list mutated by `tofind.remove(e)`
(compiled pattern objects are unique, so `remove` deletes the element at the
current iterator position): the iterator keeps a position counter, and
removing the current element shifts the rest down, so the pattern that
immediately followed a removed pattern is retained without being tested
against this line.  Returns the remaining `tofind` list and the (line,
pattern) pairs appended to `matchings`, in iteration order. -/
def scanLine (search : String → String → Bool) (line : String) :
    List String → List String × List (String × String)
  | [] => ([], [])
  | e :: rest =>
    if search line e then
      match rest with
      | [] => ([], [(line, e)])
      | f :: rest2 =>
        -- `f` is the skipped pattern: it stays in `tofind` untested
        let r := scanLine search line rest2
        (f :: r.1, (line, e) :: r.2)
    else
      let r := scanLine search line rest
      (e :: r.1, r.2)

/-- Embeds the file-creation polling loop of node.py 263-270: while the log
file does not exist, sleep half a second, then poll the process if one was
supplied; a non-zero returncode raises `RuntimeError()`, a zero returncode
just continues polling.  Returns `Sum.inr` with the updated stats once the
file exists, `Sum.inl` with an outcome otherwise. -/
def waitExistsLoop (env : WatchEnv) : Nat → Stats → WatchOutcome × Stats ⊕ Stats
  | 0, st => Sum.inl (WatchOutcome.diverge, st)
  | fuel + 1, st =>
    if env.logExists then Sum.inr st
    else
      let st1 : Stats := { st with sleptTenths := st.sleptTenths + 5 }
      match env.proc with
      | none => waitExistsLoop env fuel st1
      | some p =>
        let rc := p.rc st1.polls
        let st2 : Stats := { st1 with polls := st1.polls + 1 }
        match rc with
        | none => waitExistsLoop env fuel st2
        | some c =>
          if c = 0 then waitExistsLoop env fuel st2
          else (Sum.inl (WatchOutcome.procFailure "", st2))

/-- Embeds the main read loop of node.py 276-305.  Each iteration: poll the
process and raise `RuntimeError()` on a non-zero returncode; read a line (if
one is available, append it to `reads` and run `scanLine`, returning the
matchings when `tofind` empties; at end of file, sleep one second, bump
`elapsed` and raise `TimeoutError` when it exceeds the timeout); finally
poll again and return `None` when the returncode is zero. -/
def watchLoop (search : String → String → Bool) (env : WatchEnv) (timeout : Nat)
    (scalar : Bool) :
    Nat → List String → List (String × String) → String → Nat → List String → Stats →
      WatchOutcome × Stats
  | 0, _, _, _, _, _, st => (WatchOutcome.diverge, st)
  | fuel + 1, tofind, matchings, reads, elapsed, lines, st =>
    let rcTop := env.proc.bind fun p => p.rc st.polls
    let st1 : Stats := if env.proc.isSome then { st with polls := st.polls + 1 } else st
    if badExit rcTop then (WatchOutcome.procFailure "", st1)
    else
      match lines with
      | line :: rest =>
        let st2 : Stats := { st1 with linesRead := st1.linesRead + 1 }
        let reads1 := reads ++ line
        let scanned := scanLine search line tofind
        let matchings1 := matchings ++ scanned.2
        if scanned.1 = [] then
          (WatchOutcome.success (some (if scalar then matchings1.take 1 else matchings1)), st2)
        else
          let rcBot := env.proc.bind fun p => p.rc st2.polls
          let st3 : Stats := if env.proc.isSome then { st2 with polls := st2.polls + 1 } else st2
          if rcBot = some 0 then (WatchOutcome.success none, st3)
          else watchLoop search env timeout scalar fuel scanned.1 matchings1 reads1 elapsed rest st3
      | [] =>
        let st2 : Stats := { st1 with sleptTenths := st1.sleptTenths + 10 }
        if timeout < elapsed + 1 then
          (WatchOutcome.timeoutErr env.nodeName tofind reads, st2)
        else
          let rcBot := env.proc.bind fun p => p.rc st2.polls
          let st3 : Stats := if env.proc.isSome then { st2 with polls := st2.polls + 1 } else st2
          if rcBot = some 0 then (WatchOutcome.success none, st3)
          else watchLoop search env timeout scalar fuel tofind matchings reads (elapsed + 1) [] st3
where
  /-- The returncode test of node.py 280-283: the returncode was observed
  (`is not None`) and it is non-zero. -/
  badExit : Option Int → Bool
  | none => false
  | some c => c ≠ 0

/-- Embeds `Node.watch_log_for` (node.py 248-305).  `exprs` is the pattern
list (`scalar` records whether the caller passed a single string, in which
case the success payload is truncated to the first pair, mirroring
`matchings[0]`); `timeout` is in seconds.  An empty pattern list returns
`None` at once (node.py 260-261). -/
def watchLogFor (search : String → String → Bool) (env : WatchEnv)
    (exprs : List String) (scalar : Bool) (timeout : Nat) (fuel : Nat) :
    WatchOutcome × Stats :=
  if exprs = [] then (WatchOutcome.success none, ⟨0, 0, 0⟩)
  else
    match waitExistsLoop env fuel ⟨0, 0, 0⟩ with
    | Sum.inl out => out
    | Sum.inr st => watchLoop search env timeout scalar fuel exprs [] "" 0 env.logLines st

end Ccm

namespace Ccm

/-! ## Claims C10, C1, C5, C6 about `watch_log_for` -/

/-- C10: called with an empty pattern list, `watch_log_for` returns `None`
at once (node.py 260-261), with zero sleeps, zero polls and zero lines read,
whatever the environment (even a missing log file, a failing process handle,
or zero fuel), and never raises. -/
theorem c10_empty_patterns_immediate (search : String → String → Bool)
    (env : WatchEnv) (scalar : Bool) (timeout fuel : Nat) :
    watchLogFor search env [] scalar timeout fuel
      = (WatchOutcome.success none, ⟨0, 0, 0⟩) := rfl

/-- C1 fails on the code: with patterns ["a", "b"] and a log whose single
line "ab" matches both, the watcher matches "a", removes it from `tofind`
while iterating, thereby skips "b" for that line (node.py 288-292), and then
times out with "b" reported missing instead of returning both pairs from the
line "ab". -/
theorem c1_watch_times_out_on_shared_line :
    watchLogFor strContains ⟨"node1", true, ["ab"], none⟩ ["a", "b"] false 2 10
      = (WatchOutcome.timeoutErr "node1" ["b"] "ab", ⟨30, 0, 1⟩)
    ∧ strContains "ab" "a" = true ∧ strContains "ab" "b" = true := by
  decide

/-- Counterexample to C5: when the log file does not exist and the supplied
process has exited with code 0, `watch_log_for` does not return an empty
result: the polling loop of node.py 263-270 has no exit for a zero
returncode, so the call never returns (here: still looping after 50
iterations, having slept 25 seconds and polled 50 times). -/
theorem c5_missing_log_zero_exit_never_returns :
    watchLogFor strContains ⟨"n", false, [], some ⟨fun _ => some 0, "x"⟩⟩ ["p"] false 5 50
      = (WatchOutcome.diverge, ⟨250, 50, 0⟩)
    ∧ WatchOutcome.diverge ≠ WatchOutcome.success none := by
  decide

/-- Helper for C5: while the log file does not exist and the supplied
process has exited with code 0, the creation-polling loop of node.py 263-270
never returns, for any amount of fuel. -/
theorem waitExistsLoop_zero_exit_no_file (env : WatchEnv) (p : Proc)
    (hex : env.logExists = false) (hp : env.proc = some p)
    (h0 : ∀ k, p.rc k = some 0) :
    ∀ fuel st, ∃ st2, waitExistsLoop env fuel st = Sum.inl (WatchOutcome.diverge, st2) := by
  intro fuel
  induction fuel with
  | zero => intro st; exact ⟨st, rfl⟩
  | succ f ih =>
      intro st
      have hstep : waitExistsLoop env (f + 1) st = waitExistsLoop env f
          { sleptTenths := st.sleptTenths + 5, polls := st.polls + 1,
            linesRead := st.linesRead } := by
        simp [waitExistsLoop, hex, hp, h0]
      rw [hstep]
      exact ih _

/-- C5 (amended): a zero exit code of the supplied process ends the watch
with an empty result (`None`, not an error) once end of file has been
reached; but while the log file does not yet exist, a zero exit code does
not end the wait at all — the creation-polling loop runs forever. -/
theorem c5_zero_exit_behavior
    (search : String → String → Bool) (scalar : Bool) (name : String)
    (exprs : List String) (p : Proc) (timeout fuel : Nat)
    (hp : ∀ k, p.rc k = some 0) (he : exprs ≠ []) :
    (1 ≤ timeout → 1 ≤ fuel →
      (watchLogFor search ⟨name, true, [], some p⟩ exprs scalar timeout fuel).1
        = WatchOutcome.success none)
    ∧ ∀ lines, (watchLogFor search ⟨name, false, lines, some p⟩ exprs scalar timeout fuel).1
        = WatchOutcome.diverge := by
  constructor
  · intro ht hf
    obtain ⟨f, rfl⟩ : ∃ f, fuel = f + 1 := ⟨fuel - 1, by omega⟩
    have hstep : watchLogFor search ⟨name, true, [], some p⟩ exprs scalar timeout (f + 1)
        = watchLoop search ⟨name, true, [], some p⟩ timeout scalar (f + 1)
            exprs [] "" 0 [] ⟨0, 0, 0⟩ := by
      simp [watchLogFor, he, waitExistsLoop]
    have hlt : ¬ (timeout < 0 + 1) := by omega
    rw [hstep]
    simp [watchLoop, watchLoop.badExit, hp, hlt]
  · intro lines
    obtain ⟨st2, hloop⟩ :=
      waitExistsLoop_zero_exit_no_file ⟨name, false, lines, some p⟩ p rfl rfl hp fuel ⟨0, 0, 0⟩
    simp [watchLogFor, he, hloop]

/-- Witness for C5: instantiates the amended theorem with substring search,
one pattern, a process that has already exited with code 0, timeout 5 and
fuel 3. -/
theorem c5_zero_exit_behavior_witness :
    ((1 ≤ 5 → 1 ≤ 3 →
      (watchLogFor strContains ⟨"n", true, [], some ⟨fun _ => some 0, "e"⟩⟩ ["p"] false 5 3).1
        = WatchOutcome.success none)
    ∧ ∀ lines, (watchLogFor strContains ⟨"n", false, lines, some ⟨fun _ => some 0, "e"⟩⟩
        ["p"] false 5 3).1 = WatchOutcome.diverge) :=
  c5_zero_exit_behavior strContains false "n" ["p"] ⟨fun _ => some 0, "e"⟩ 5 3
    (fun _ => rfl) (by decide)

end Ccm

namespace Ccm

/-- Counterexample to C6: the process exits with code 1 (observed at the
third poll, after the line "hit x" already matched the pattern "hit") and
the watcher raises; but the raised error is the bare `RuntimeError()` of
node.py 283, whose payload is the empty string — it does not carry the
captured standard-error text "boom" (that text is only printed by
`print_process_output`). -/
theorem c6_failure_carries_no_stderr :
    watchLogFor strContains
      ⟨"n", true, ["hit x"], some ⟨fun k => if k ≤ 1 then none else some 1, "boom"⟩⟩
      ["hit", "miss"] false 5 5
      = (WatchOutcome.procFailure "", ⟨0, 3, 1⟩)
    ∧ ("" : String) ≠ "boom"
    ∧ (⟨fun k => if k ≤ 1 then none else some 1, "boom"⟩ : Proc).stderrText = "boom" := by
  refine ⟨by decide, by decide, rfl⟩

/-- C6 (amended): whenever the top-of-loop poll of node.py 278-283 observes
a non-zero returncode, the watch fails on that very iteration — whatever
lines remain unread, whatever patterns are still pending and however many
matchings were already recorded — and the raised error is the generic
`RuntimeError()` with empty payload, which carries no captured
standard-error output. -/
theorem c6_nonzero_exit_generic_failure
    (search : String → String → Bool) (env : WatchEnv) (timeout : Nat) (scalar : Bool)
    (fuel : Nat) (tofind : List String) (matchings : List (String × String))
    (reads : String) (elapsed : Nat) (lines : List String) (st : Stats)
    (p : Proc) (c : Int)
    (hproc : env.proc = some p) (hrc : p.rc st.polls = some c) (hnz : c ≠ 0)
    (hf : 1 ≤ fuel) :
    (watchLoop search env timeout scalar fuel tofind matchings reads elapsed lines st).1
      = WatchOutcome.procFailure "" := by
  obtain ⟨f, rfl⟩ : ∃ f, fuel = f + 1 := ⟨fuel - 1, by omega⟩
  simp [watchLoop, watchLoop.badExit, hproc, hrc, hnz]

/-- Witness for C6: instantiates the amended theorem mid-watch, with the
pattern "hit" already matched on the line "hit x", the pattern "miss" still
pending, one more line available, and a process that exited with code 1. -/
theorem c6_nonzero_exit_generic_failure_witness :
    (watchLoop strContains ⟨"n", true, ["hit x", "late miss"], some ⟨fun _ => some 1, "boom"⟩⟩
        60 false 4 ["miss"] [("hit x", "hit")] "hit x" 0 ["late miss"] ⟨0, 2, 1⟩).1
      = WatchOutcome.procFailure "" :=
  c6_nonzero_exit_generic_failure strContains
    ⟨"n", true, ["hit x", "late miss"], some ⟨fun _ => some 1, "boom"⟩⟩ 60 false 4
    ["miss"] [("hit x", "hit")] "hit x" 0 ["late miss"] ⟨0, 2, 1⟩
    ⟨fun _ => some 1, "boom"⟩ 1 rfl rfl (by decide) (by decide)

end Ccm

namespace Ccm

/-- Concatenation of the lines read, as accumulated in `reads`. -/
def joinLines : List String → String
  | [] => ""
  | l :: rest => l ++ joinLines rest

/-- The patterns left in `tofind` after the read loop has scanned the given
lines in order, each line processed by `scanLine`. -/
def remainingAfter (search : String → String → Bool) (tofind lines : List String) :
    List String :=
  lines.foldl (fun ts l => (scanLine search l ts).1) tofind

theorem watchLoop_timeout_characterize (search : String → String → Bool) (env : WatchEnv)
    (timeout : Nat) (scalar : Bool) :
    ∀ (fuel : Nat) (tofind : List String) (matchings : List (String × String))
      (reads0 : String) (elapsed : Nat) (lines : List String) (st : Stats)
      (name : String) (missing : List String) (reads : String) (stF : Stats),
      tofind ≠ [] →
      watchLoop search env timeout scalar fuel tofind matchings reads0 elapsed lines st
        = (WatchOutcome.timeoutErr name missing reads, stF) →
      name = env.nodeName ∧ missing = remainingAfter search tofind lines ∧ missing ≠ []
      ∧ reads = reads0 ++ joinLines lines
      ∧ st.sleptTenths + 10 * (timeout + 1 - elapsed) ≤ stF.sleptTenths := by
  intro fuel
  induction fuel with
  | zero =>
      intro tofind matchings reads0 elapsed lines st name missing reads stF htf h
      simp [watchLoop] at h
  | succ f ih =>
      intro tofind matchings reads0 elapsed lines st name missing reads stF htf h
      cases lines with
      | nil =>
          simp only [watchLoop] at h
          repeat' split at h
          all_goals first
            | (injection h with h1 h2
               exact WatchOutcome.noConfusion h1)
            | (injection h with h1 h2
               injection h1 with e1 e2 e3
               subst e1; subst e2; subst e3; subst h2
               refine ⟨rfl, by simp [remainingAfter], htf, by simp [joinLines], ?_⟩
               show st.sleptTenths + 10 * (timeout + 1 - elapsed) ≤ st.sleptTenths + 10
               omega)
            | (obtain ⟨h1, h2, h3, h4, h5⟩ :=
                 ih tofind matchings reads0 (elapsed + 1) [] _ name missing reads stF htf h
               have h6 : st.sleptTenths + 10 + 10 * (timeout + 1 - (elapsed + 1))
                   ≤ stF.sleptTenths := h5
               exact ⟨h1, h2, h3, h4, by omega⟩)
      | cons line rest =>
          simp only [watchLoop] at h
          repeat' split at h
          all_goals first
            | (injection h with h1 h2
               exact WatchOutcome.noConfusion h1)
            | (obtain ⟨h1, h2, h3, h4, h5⟩ :=
                 ih _ _ (reads0 ++ line) elapsed rest _ name missing reads stF (by assumption) h
               refine ⟨h1, by simpa [remainingAfter] using h2, h3,
                 by simpa [joinLines, String.append_assoc] using h4, ?_⟩
               exact h5)

end Ccm


namespace Ccm

theorem waitExistsLoop_inl (env : WatchEnv) :
    ∀ (fuel : Nat) (st : Stats) (o : WatchOutcome) (st2 : Stats),
      waitExistsLoop env fuel st = Sum.inl (o, st2) →
      o = WatchOutcome.diverge ∨ o = WatchOutcome.procFailure "" := by
  intro fuel
  induction fuel with
  | zero =>
      intro st o st2 h
      simp only [waitExistsLoop] at h
      have h1 := (Prod.mk.inj (Sum.inl.inj h)).1
      exact Or.inl h1.symm
  | succ f ih =>
      intro st o st2 h
      by_cases hex : env.logExists
      · simp [waitExistsLoop, hex] at h
      · simp only [waitExistsLoop, hex, if_false, Bool.false_eq_true, ite_false] at h
        cases hp : env.proc with
        | none =>
            simp only [hp] at h
            exact ih _ o st2 h
        | some p =>
            simp only [hp] at h
            cases hr : p.rc st.polls with
            | none =>
                simp only [hr] at h
                exact ih _ o st2 h
            | some c =>
                simp only [hr] at h
                by_cases hc : c = 0
                · rw [if_pos hc] at h
                  exact ih _ o st2 h
                · rw [if_neg hc] at h
                  have h1 := (Prod.mk.inj (Sum.inl.inj h)).1
                  exact Or.inr h1.symm

theorem waitExistsLoop_inr (env : WatchEnv) :
    ∀ (fuel : Nat) (st st2 : Stats),
      waitExistsLoop env fuel st = Sum.inr st2 →
      env.logExists = true ∧ st2 = st := by
  intro fuel
  induction fuel with
  | zero =>
      intro st st2 h
      simp [waitExistsLoop] at h
  | succ f ih =>
      intro st st2 h
      by_cases hex : env.logExists
      · simp only [waitExistsLoop, hex, if_true, ite_true] at h
        exact ⟨hex, (Sum.inr.inj h).symm⟩
      · simp only [waitExistsLoop, hex, if_false, Bool.false_eq_true, ite_false] at h
        cases hp : env.proc with
        | none =>
            simp only [hp] at h
            exact absurd (ih _ st2 h).1 (by simpa using hex)
        | some p =>
            simp only [hp] at h
            cases hr : p.rc st.polls with
            | none =>
                simp only [hr] at h
                exact absurd (ih _ st2 h).1 (by simpa using hex)
            | some c =>
                simp only [hr] at h
                by_cases hc : c = 0
                · rw [if_pos hc] at h
                  exact absurd (ih _ st2 h).1 (by simpa using hex)
                · rw [if_neg hc] at h
                  exact Sum.noConfusion h

end Ccm

namespace Ccm

end Ccm

namespace Ccm

/-- Counterexample to C7: patterns ["a", "b"] against the log lines "ab" and
"zzz" with timeout 1: the watcher times out reporting "b" as still missing,
although "b" did match the line "ab" that was read (and is part of the
reported text) — the remove-while-iterating skip of node.py 288-292 kept it
in the active set, so the reported set is not exactly the unsatisfied subset
of the patterns. -/
theorem c7_timeout_reports_appeared_pattern :
    watchLogFor strContains ⟨"n", true, ["ab", "zzz"], none⟩ ["a", "b"] false 1 10
      = (WatchOutcome.timeoutErr "n" ["b"] "abzzz", ⟨20, 0, 2⟩)
    ∧ strContains "ab" "b" = true := by
  decide

/-- C7 (amended): whenever `watch_log_for` raises `TimeoutError`, the error
carries the node name, the text of every line read, and exactly the patterns
left in the active set of the watcher after scanning all available lines
(which, because of the per-line skip after a removal, may include patterns
that already appeared); the raise happens only after more than `timeout`
seconds of accumulated one-second sleeps (`sleptTenths` is in tenths of a
second).  The wall-clock timestamp of node.py 300 is outside the embedding. -/
theorem c7_timeout_characterization
    (search : String → String → Bool) (env : WatchEnv) (exprs : List String)
    (scalar : Bool) (timeout fuel : Nat)
    (name : String) (missing : List String) (reads : String) (stF : Stats)
    (h : watchLogFor search env exprs scalar timeout fuel
      = (WatchOutcome.timeoutErr name missing reads, stF)) :
    name = env.nodeName ∧ missing = remainingAfter search exprs env.logLines
    ∧ missing ≠ [] ∧ reads = joinLines env.logLines
    ∧ 10 * timeout < stF.sleptTenths := by
  by_cases he : exprs = []
  · subst he
    simp [watchLogFor] at h
  · rw [watchLogFor, if_neg he] at h
    rcases hw : waitExistsLoop env fuel ⟨0, 0, 0⟩ with out | st0
    · rw [hw] at h
      obtain ⟨o, st2⟩ := out
      rcases waitExistsLoop_inl env fuel ⟨0, 0, 0⟩ o st2 hw with ho | ho <;>
        (subst ho; exact absurd ((Prod.mk.inj h).1) (by simp))
    · rw [hw] at h
      obtain ⟨hex, h0⟩ := waitExistsLoop_inr env fuel ⟨0, 0, 0⟩ st0 hw
      subst h0
      obtain ⟨h1, h2, h3, h4, h5⟩ := watchLoop_timeout_characterize search env timeout scalar
        fuel exprs [] "" 0 env.logLines ⟨0, 0, 0⟩ name missing reads stF he h
      refine ⟨h1, h2, h3, by simpa using h4, ?_⟩
      have h6 : (0 : Nat) + 10 * (timeout + 1 - 0) ≤ stF.sleptTenths := h5
      omega

/-- Witness for C7: instantiates the amended theorem at a run with the
single pattern "q", one non-matching log line "x" and timeout 0, which times
out after one sleep. -/
theorem c7_timeout_characterization_witness :
    "w" = (⟨"w", true, ["x"], none⟩ : WatchEnv).nodeName
    ∧ ["q"] = remainingAfter strContains ["q"] (⟨"w", true, ["x"], none⟩ : WatchEnv).logLines
    ∧ (["q"] : List String) ≠ []
    ∧ "x" = joinLines (⟨"w", true, ["x"], none⟩ : WatchEnv).logLines
    ∧ 10 * 0 < (⟨10, 0, 1⟩ : Stats).sleptTenths :=
  c7_timeout_characterization strContains ⟨"w", true, ["x"], none⟩ ["q"] false 0 5
    "w" ["q"] "x" ⟨10, 0, 1⟩ (by decide)

end Ccm

namespace Ccm

/-! ## ClusterSyncCoordinator: event order of `start` and `stop` -/

/-- The externally visible actions of `Node.start` and `Node.stop` that the
mark-before-action ordering claim speaks about. -/
inductive ClusterEvent where
  | captureMark (peer : String)
  | spawnProcess
  | watchAlive (peer : String)
  | killSignal (gently : Bool)
  | watchDeath (peer : String)
deriving DecidableEq

/-- Embeds the order of actions in `Node.start` (node.py 351-416) relevant
to claim C8: when `wait_other_notice` is set, the log mark of every running
peer is captured (node.py 358-359), then `subprocess.Popen` spawns the
process (391), then each captured peer is watched from its mark (406-408).
Peers are identified by name; `runningPeers` is the list of peers for which
`node.is_running()` held during mark capture. -/
def startEvents (waitOtherNotice : Bool) (runningPeers : List String) : List ClusterEvent :=
  (if waitOtherNotice then runningPeers.map ClusterEvent.captureMark else [])
    ++ ([ClusterEvent.spawnProcess]
    ++ (if waitOtherNotice then runningPeers.map ClusterEvent.watchAlive else []))

/-- Embeds the order of actions in `Node.stop` (node.py 428-443) relevant to
claim C8: when `wait_other_notice` is set, the log mark of every other
running peer is captured (429-431), then the termination signal is sent
(433-436), then each captured peer is watched from its mark (438-440). -/
def stopEvents (waitOtherNotice gently : Bool) (runningPeers : List String) :
    List ClusterEvent :=
  (if waitOtherNotice then runningPeers.map ClusterEvent.captureMark else [])
    ++ ([ClusterEvent.killSignal gently]
    ++ (if waitOtherNotice then runningPeers.map ClusterEvent.watchDeath else []))

/-- C8: in `start` with `wait_other_notice` and in `stop` with
`wait_other_notice`, the mark of every running peer is captured strictly
before the triggering action: the capture event of each peer occurs at a
strictly smaller position of the trace than the process spawn (in start) and
than the termination signal (in stop). -/
theorem c8_marks_before_action (peers : List String) (g : Bool) (peer : String)
    (hmem : peer ∈ peers) :
    (startEvents true peers).indexOf (ClusterEvent.captureMark peer)
      < (startEvents true peers).indexOf ClusterEvent.spawnProcess
    ∧ (stopEvents true g peers).indexOf (ClusterEvent.captureMark peer)
      < (stopEvents true g peers).indexOf (ClusterEvent.killSignal g) := by
  have hm : ClusterEvent.captureMark peer ∈ peers.map ClusterEvent.captureMark :=
    List.mem_map_of_mem _ hmem
  have hlt : (peers.map ClusterEvent.captureMark).indexOf (ClusterEvent.captureMark peer)
      < (peers.map ClusterEvent.captureMark).length := List.indexOf_lt_length.2 hm
  constructor
  · have hs : startEvents true peers
        = peers.map ClusterEvent.captureMark
          ++ ([ClusterEvent.spawnProcess] ++ peers.map ClusterEvent.watchAlive) := rfl
    rw [hs, List.indexOf_append_of_mem hm,
      List.indexOf_append_of_not_mem (by simp), List.singleton_append,
      List.indexOf_cons_self]
    omega
  · have hs : stopEvents true g peers
        = peers.map ClusterEvent.captureMark
          ++ ([ClusterEvent.killSignal g] ++ peers.map ClusterEvent.watchDeath) := rfl
    rw [hs, List.indexOf_append_of_mem hm,
      List.indexOf_append_of_not_mem (by simp), List.singleton_append,
      List.indexOf_cons_self]
    omega

/-- Witness for C8: a two-peer cluster, stopping gently; both traces place
the mark capture of peer "node2" before the spawn, respectively before the
signal. -/
theorem c8_marks_before_action_witness :
    (startEvents true ["node2", "node3"]).indexOf (ClusterEvent.captureMark "node2")
      < (startEvents true ["node2", "node3"]).indexOf ClusterEvent.spawnProcess
    ∧ (stopEvents true true ["node2", "node3"]).indexOf (ClusterEvent.captureMark "node2")
      < (stopEvents true true ["node2", "node3"]).indexOf (ClusterEvent.killSignal true) :=
  c8_marks_before_action ["node2", "node3"] true "node2" (by decide)

end Ccm

namespace Ccm

/-! ## Node configuration record: `__update_config` and `load`

`remote_debug_port`, `initial_token` and `pid` are modelled as integers:
`Node.__update_config` (node.py 737-764) writes each optional key only when
the field is Python-truthy (`if self.pid:`, `if self.initial_token:`,
`if self.data_center:`, `if self.remote_debug_port:`), so the integer 0 and
the empty string are skipped exactly like an absent value. -/

/-- Python truthiness of an optional integer attribute. -/
def truthyOptInt : Option Int → Bool
  | none => false
  | some v => v ≠ 0

/-- Python truthiness of an optional string attribute. -/
def truthyOptStr : Option String → Bool
  | none => false
  | some s => s ≠ ""

/-- The attributes of a Node that `__update_config` saves and `load`
restores: identity, status, bootstrap flag, the three network interfaces,
ports, token, pid, option overrides, install directory and data-center
label (node.py 45-57 and 84-93). -/
structure NodeFields where
  name : String
  status : Status
  auto_bootstrap : Bool
  thrift : String × Int
  storage : String × Int
  binary : Option (String × Int)
  jmx_port : Int
  remote_debug_port : Int
  initial_token : Option Int
  pid : Option Int
  config_options : List (String × Int)
  cassandra_dir : Option String
  data_center : Option String
deriving DecidableEq

/-- The content of the node.conf document: one entry per key, `none` when
the key is absent from the file. -/
structure NodeConf where
  name : String
  status : Status
  auto_bootstrap : Bool
  thrift : String × Int
  storage : String × Int
  binary : Option (String × Int)
  jmx_port : Int
  config_options : List (String × Int)
  pid : Option Int
  initial_token : Option Int
  cassandra_dir : Option String
  data_center : Option String
  remote_debug_port : Option Int
deriving DecidableEq

/-- Embeds `Node.__update_config` (node.py 737-764): the `values` dict
always carries name, status, auto_bootstrap, interfaces, jmx_port and
config_options; pid, initial_token and data_center are added only when
truthy, cassandra_dir only when not None, remote_debug_port only when
truthy. -/
def updateConfig (n : NodeFields) : NodeConf where
  name := n.name
  status := n.status
  auto_bootstrap := n.auto_bootstrap
  thrift := n.thrift
  storage := n.storage
  binary := n.binary
  jmx_port := n.jmx_port
  config_options := n.config_options
  pid := if truthyOptInt n.pid then n.pid else none
  initial_token := if truthyOptInt n.initial_token then n.initial_token else none
  cassandra_dir := n.cassandra_dir
  data_center := if truthyOptStr n.data_center then n.data_center else none
  remote_debug_port := if n.remote_debug_port ≠ 0 then some n.remote_debug_port else none

/-- Embeds `Node.load` (node.py 63-96): mandatory keys are read directly;
initial_token defaults to None, remote_debug_port defaults to 2000, and
pid, cassandra_dir, config_options and data_center keep the values
`Node.__init__` gave them (None or empty) when their key is absent. -/
def loadNode (c : NodeConf) : NodeFields where
  name := c.name
  status := c.status
  auto_bootstrap := c.auto_bootstrap
  thrift := c.thrift
  storage := c.storage
  binary := c.binary
  jmx_port := c.jmx_port
  remote_debug_port := c.remote_debug_port.getD 2000
  initial_token := c.initial_token
  pid := c.pid
  config_options := c.config_options
  cassandra_dir := c.cassandra_dir
  data_center := c.data_center

/-- Counterexample to C9: a node whose initial_token is 0 (a legitimate
placement token) and whose remote_debug_port is 0 does not round-trip:
both fields are Python-falsy, so `__update_config` omits their keys, and
`load` restores initial_token as None and remote_debug_port as the default
2000. -/
theorem c9_roundtrip_drops_falsy_fields :
    loadNode (updateConfig
        ⟨"node1", Status.down, true, ("127.0.0.1", 9160), ("127.0.0.1", 7000), none,
          7100, 0, some 0, none, [], none, none⟩)
      = ⟨"node1", Status.down, true, ("127.0.0.1", 9160), ("127.0.0.1", 7000), none,
          7100, 2000, none, none, [], none, none⟩
    ∧ (some 0 : Option Int) ≠ none ∧ (0 : Int) ≠ 2000 := by
  decide

/-- C9 (amended): writing the configuration record and loading it back
restores every saved attribute, provided the truthiness-skipped optional
fields do not hold a falsy-but-meaningful value: pid and initial_token not
0, remote_debug_port not 0, data_center not the empty string. -/
theorem c9_roundtrip_preserves_fields (n : NodeFields)
    (hpid : n.pid ≠ some 0) (htok : n.initial_token ≠ some 0)
    (hdbg : n.remote_debug_port ≠ 0) (hdc : n.data_center ≠ some "") :
    loadNode (updateConfig n) = n := by
  have h1 : (if truthyOptInt n.pid then n.pid else none) = n.pid := by
    cases hp : n.pid with
    | none => simp [truthyOptInt]
    | some v =>
        rw [hp] at hpid
        simp only [truthyOptInt]
        have hv : v ≠ 0 := fun hv0 => hpid (by rw [hv0])
        simp [hv]
  have h2 : (if truthyOptInt n.initial_token then n.initial_token else none)
      = n.initial_token := by
    cases hp : n.initial_token with
    | none => simp [truthyOptInt]
    | some v =>
        rw [hp] at htok
        simp only [truthyOptInt]
        have hv : v ≠ 0 := fun hv0 => htok (by rw [hv0])
        simp [hv]
  have h3 : (if truthyOptStr n.data_center then n.data_center else none)
      = n.data_center := by
    cases hp : n.data_center with
    | none => simp [truthyOptStr]
    | some s =>
        rw [hp] at hdc
        simp only [truthyOptStr]
        have hs : s ≠ "" := fun hs0 => hdc (by rw [hs0])
        simp [hs]
  have h4 : ((if n.remote_debug_port ≠ 0 then some n.remote_debug_port else none).getD 2000)
      = n.remote_debug_port := by
    rw [if_pos hdbg]
    rfl
  simp only [loadNode, updateConfig, h1, h2, h3, h4]

/-- Witness for C9: a fully populated node record with truthy optional
fields round-trips unchanged. -/
theorem c9_roundtrip_preserves_fields_witness :
    loadNode (updateConfig
        ⟨"node2", Status.up, false, ("127.0.0.2", 9160), ("127.0.0.2", 7000),
          some ("127.0.0.2", 9042), 7200, 2100, some 5, some 42,
          [("concurrent_writes", 64)], some "/opt/cassandra", some "dc1"⟩)
      = ⟨"node2", Status.up, false, ("127.0.0.2", 9160), ("127.0.0.2", 7000),
          some ("127.0.0.2", 9042), 7200, 2100, some 5, some 42,
          [("concurrent_writes", 64)], some "/opt/cassandra", some "dc1"⟩ :=
  c9_roundtrip_preserves_fields _ (by decide) (by decide) (by decide) (by decide)

end Ccm
